import Mathlib

/-!
Verification of the topogen topology synthesis engine (src/topogen).

The Python sources are shallowly embedded: IPv4 addresses are natural
numbers, `ipaddress.IPv4Network` is a pair of a numeric network address
and a prefix length, the stateful pool generators of `Renderer.__init__`
become index-to-subnet functions, and the offline YAML builders become
pure functions from parameters to line lists.  Each definition carries a
doc comment naming the source lines it is translated from.
-/

namespace Topogen

/-- An `ipaddress.IPv4Network`: numeric network address plus prefix length
(`config.py:73-74`, `render.py:560,568`). -/
structure IPv4Net where
  addr : Nat
  plen : Nat
deriving Repr, DecidableEq

/-- The `k`-th subnet of prefix length `q` produced by
`IPv4Network.subnets(prefixlen_diff=...)` (`render.py:560-570`): the Python
generator yields the subnets of the pool in ascending address order, so the
`k`-th one starts at `addr + k * 2^(32-q)`. -/
def subnetAddr (net : IPv4Net) (q k : Nat) : Nat := net.addr + k * 2 ^ (32 - q)

/-- Default loopback pool `10.0.0.0/8` (`config.py:73`). -/
def defaultLoopbacks : IPv4Net := ⟨0x0A000000, 8⟩

/-- Default point-to-point pool `172.16.0.0/12` (`config.py:74`). -/
def defaultP2pnets : IPv4Net := ⟨0xAC100000, 12⟩

/-- The `k`-th /32 loopback handed out during a run.  `Renderer.__init__`
builds the /32 generator and immediately advances it once ("we do not want
to use .0", `render.py:559-564`), so allocation `k` yields subnet `k + 1`
of the pool. -/
def loopbackNth (pool : IPv4Net) (k : Nat) : Nat := subnetAddr pool 32 (k + 1)

/-- The `k`-th /30 network returned by `Renderer.next_network`
(`render.py:746-749`).  `Renderer.__init__` creates the /30 generator
(`render.py:566-570`) without advancing it, so allocation `k` yields
subnet `k` of the pool, starting with the very first /30. -/
def p2pNth (pool : IPv4Net) (k : Nat) : Nat := subnetAddr pool 30 k

/-- Address range covered by the `k`-th allocated /30: four consecutive
addresses (network, two hosts, broadcast; `render.py:566-567`). -/
def p2pBlock (pool : IPv4Net) (k : Nat) : Set Nat :=
  Set.Ico (p2pNth pool k) (p2pNth pool k + 4)

/-- C1 (amended): the loopback allocator never returns the first /32 of its
pool and two consecutive loopback allocations differ; two consecutive /30
allocations from the p2p pool cover disjoint address ranges.  (The claim's
remaining part — that the p2p allocator also skips its first /30 — is false,
see the counterexample.) -/
theorem C1_allocator_invariants (lpool ppool : IPv4Net) (k : Nat) :
    loopbackNth lpool k ≠ subnetAddr lpool 32 0
    ∧ loopbackNth lpool k ≠ loopbackNth lpool (k + 1)
    ∧ ∀ a : Nat, a ∈ p2pBlock ppool k → a ∉ p2pBlock ppool (k + 1) := by
  refine ⟨?_, ?_, ?_⟩
  · simp only [loopbackNth, subnetAddr]
    omega
  · simp only [loopbackNth, subnetAddr]
    omega
  · intro a ha hb
    simp only [p2pBlock, p2pNth, subnetAddr, Set.mem_Ico] at ha hb
    omega

/-- Witness for C1 on the default pools: address `172.16.0.1` lies in the
first allocated /30 and therefore not in the second. -/
theorem C1_allocator_invariants_witness :
    (0xAC100001 : Nat) ∉ p2pBlock defaultP2pnets 1 :=
  (C1_allocator_invariants defaultLoopbacks defaultP2pnets 0).2.2 0xAC100001
    (Set.mem_Ico.mpr ⟨by decide, by decide⟩)

/-- C1 counterexample: the first call to `next_network` returns the first
/30 subnet of the configured p2p pool (the generator is never advanced past
it, `render.py:566-570`), contradicting the claim that the first /30 is
reserved.  Evaluated on the default pool `172.16.0.0/12`. -/
theorem C1_p2p_first_subnet_counterexample :
    p2pNth defaultP2pnets 0 = subnetAddr defaultP2pnets 30 0
    ∧ p2pNth defaultP2pnets 0 = 0xAC100000 := by
  constructor <;> rfl

/-- The `addr_parts` helper of `offline_flat_yaml` (`render.py:2961-2965`):
high byte `(n // 256) & 0xFF`, low byte `n % 256` (`& 0xFF` is `% 256`). -/
def addr_parts (n : Nat) : Nat × Nat := ((n / 256) % 256, n % 256)

/-- Flat-mode index→address derivation (`render.py:4172-4178` and
`render.py:2961-2965, 3159-3161`): the last two bytes of the /16 base are
set to `addr_parts n`, i.e. the derived address is
`base + hi * 256 + lo`. -/
def deriveFlatAddr (base n : Nat) : Nat :=
  base + ((n / 256) % 256) * 256 + n % 256

/-- C2: the derivation writes bytes `(n / 256) & 0xFF` and `n % 256` into
the base, and is injective on 1-based indices 1..65535: distinct indices in
that range always derive distinct addresses. -/
theorem C2_flat_derivation_injective (base i j : Nat)
    (hi1 : 1 ≤ i) (hi2 : i ≤ 65535) (hj1 : 1 ≤ j) (hj2 : j ≤ 65535)
    (hij : i ≠ j) :
    deriveFlatAddr base i = base + (addr_parts i).1 * 256 + (addr_parts i).2
    ∧ deriveFlatAddr base i ≠ deriveFlatAddr base j := by
  refine ⟨rfl, ?_⟩
  intro h
  simp only [deriveFlatAddr] at h
  omega

/-- Witness for C2 at base `10.10.0.0`, indices 1 and 2. -/
theorem C2_flat_derivation_injective_witness :
    deriveFlatAddr 0x0A0A0000 1 ≠ deriveFlatAddr 0x0A0A0000 2 :=
  (C2_flat_derivation_injective 0x0A0A0000 1 2 (by decide) (by decide)
    (by decide) (by decide) (by decide)).2

/-- Exact ceiling division.  `validate_flat_topology` computes
`math.ceil(total_nodes / group_size)` (`render.py:666`); for the integer
magnitudes the guardrails deal in, float division followed by `ceil` equals
exact ceiling division. -/
def ceilDiv (a b : Nat) : Nat := (a + b - 1) / b

/-- `Renderer.validate_flat_topology` (`render.py:649-673`): port-capacity
guardrails for the flat fabric, returning the access-switch count.  A raised
`TopogenError` is modelled as `Except.error` with the source's message. -/
def validate_flat_topology (total_nodes group_size : Nat) : Except String Nat :=
  if group_size < 1 then
    Except.error "--flat-group-size must be >= 1"
  else
    let access_ports_required := group_size + 1
    if access_ports_required > 32 then
      Except.error (s!"group size {group_size} requires {access_ports_required} ports on an access switch, " ++
        "which exceeds the typical 32-port limit; reduce --flat-group-size")
    else
      let num_access := ceilDiv total_nodes group_size
      if num_access > 32 then
        Except.error (s!"{total_nodes} nodes with group size {group_size} requires {num_access} access switches, " ++
          "which exceeds a typical 32-port core unmanaged switch; increase --flat-group-size")
      else
        Except.ok num_access

/-- An object-creation side effect of the live flat renderer: a node or a
link created on the controller. -/
inductive FlatEvent where
  | node (label : String)
  | link (a b : String)
deriving DecidableEq

/-- `Renderer.render_flat_network` (`render.py:4092-4158`) as an event
trace: `validate_flat_topology` runs first (`render.py:4092-4094`, with
`group = max(1, flat_group_size)`); only when it passes are the core
switch, the access switches with their uplinks, and the routers with their
access links created.  On a validation error the trace is empty and the
error message is returned. -/
def renderFlatNetworkEvents (nodes g0 : Nat) :
    List FlatEvent × Option String :=
  let group := max 1 g0
  match validate_flat_topology nodes group with
  | Except.error e => ([], some e)
  | Except.ok num_sw =>
    let core := [FlatEvent.node "SW0"]
    let sws := (List.range num_sw).flatMap fun i =>
      [FlatEvent.node s!"SW{i + 1}", FlatEvent.link "SW0" s!"SW{i + 1}"]
    let rts := (List.range nodes).flatMap fun idx =>
      [FlatEvent.node s!"R{idx + 1}",
       FlatEvent.link s!"R{idx + 1}" s!"SW{idx / group + 1}"]
    (core ++ sws ++ rts, none)

/-- C3: with the effective group size `max 1 g0`, violating either
guardrail (`group + 1 > 32` or `ceil(nodes / group) > 32`) makes the flat
build fail with an error before any node, switch, or link event; otherwise
validation passes and returns the access-switch count
`ceil(nodes / group)`. -/
theorem C3_flat_guardrails (nodes g0 : Nat) :
    (max 1 g0 + 1 > 32 ∨ ceilDiv nodes (max 1 g0) > 32 →
      (renderFlatNetworkEvents nodes g0).1 = []
      ∧ (renderFlatNetworkEvents nodes g0).2.isSome = true)
    ∧ (max 1 g0 + 1 ≤ 32 → ceilDiv nodes (max 1 g0) ≤ 32 →
      validate_flat_topology nodes (max 1 g0) =
        Except.ok (ceilDiv nodes (max 1 g0))) := by
  have hg : ¬ (max 1 g0 < 1) := by omega
  constructor
  · intro h
    unfold renderFlatNetworkEvents validate_flat_topology
    rcases h with h | h
    · simp only [hg, if_false, if_pos h]
      exact ⟨trivial, rfl⟩
    · have h32 : max 1 g0 + 1 > 32 ∨ ¬ (max 1 g0 + 1 > 32) := by omega
      rcases h32 with h32 | h32
      · simp only [hg, if_false, if_pos h32]
        exact ⟨trivial, rfl⟩
      · simp only [hg, if_false, if_neg h32, if_pos h]
        exact ⟨trivial, rfl⟩
  · intro h1 h2
    unfold validate_flat_topology
    simp only [hg, if_false]
    rw [if_neg (by omega), if_neg (by omega)]

/-- Witness for C3: `nodes = 1000, group = 20` needs 50 access switches and
aborts with no events; `nodes = 5, group = 20` validates to 1 access
switch. -/
theorem C3_flat_guardrails_witness :
    ((renderFlatNetworkEvents 1000 20).1 = []
      ∧ (renderFlatNetworkEvents 1000 20).2.isSome = true)
    ∧ validate_flat_topology 5 20 = Except.ok (ceilDiv 5 20) :=
  ⟨(C3_flat_guardrails 1000 20).1 (by right; decide),
   (C3_flat_guardrails 5 20).2 (by decide) (by decide)⟩

/-- Access-switch attachment in flat-pair mode (`render.py:1581-1590`;
offline: `render.py:3986-4000`): the router loop runs over all indices but
links only odd-numbered routers (`(idx + 1) % 2 == 1`) to their group's
access switch `idx // group + 1`.  Element: (router number, access-switch
number). -/
def flatPairAccessLinks (total group : Nat) : List (Nat × Nat) :=
  (List.range total).filterMap fun idx =>
    if (idx + 1) % 2 = 1 then some (idx + 1, idx / group + 1) else none

/-- Pairing links in flat-pair mode (`render.py:1592-1614`; offline:
`render.py:4002-4012`): the loop runs over odd router numbers and links
`(odd, odd + 1)` only when the even partner exists (`even <= total`);
a trailing odd router without a partner gets no link. -/
def flatPairPairLinks (total : Nat) : List (Nat × Nat) :=
  (List.range total).filterMap fun idx =>
    if (idx + 1) % 2 = 1 ∧ idx + 2 ≤ total then some (idx + 1, idx + 2)
    else none

/-- The highest odd router number, i.e. the last router attached to the
access fabric in flat-pair mode. -/
def lastOddRouter (total : Nat) : Nat :=
  if total % 2 = 1 then total else total - 1

/-- Membership characterization of the flat-pair access links. -/
theorem mem_flatPairAccessLinks (total group a sw : Nat) :
    (a, sw) ∈ flatPairAccessLinks total group ↔
      a % 2 = 1 ∧ 1 ≤ a ∧ a ≤ total ∧ sw = (a - 1) / group + 1 := by
  unfold flatPairAccessLinks
  simp only [List.mem_filterMap, List.mem_range]
  constructor
  · rintro ⟨idx, hidx, hf⟩
    split at hf
    · next hcond =>
      rw [Option.some.injEq, Prod.mk.injEq] at hf
      obtain ⟨ha, hsw⟩ := hf
      refine ⟨by omega, by omega, by omega, ?_⟩
      have : a - 1 = idx := by omega
      rw [this, hsw]
    · exact absurd hf (by simp)
  · rintro ⟨hodd, h1, h2, hsw⟩
    refine ⟨a - 1, by omega, ?_⟩
    rw [show a - 1 + 1 = a from by omega, if_pos hodd, hsw]

/-- Membership characterization of the flat-pair pairing links. -/
theorem mem_flatPairPairLinks (total a b : Nat) :
    (a, b) ∈ flatPairPairLinks total ↔
      a % 2 = 1 ∧ 1 ≤ a ∧ a + 1 ≤ total ∧ b = a + 1 := by
  unfold flatPairPairLinks
  simp only [List.mem_filterMap, List.mem_range]
  constructor
  · rintro ⟨idx, hidx, hf⟩
    split at hf
    · next hcond =>
      rw [Option.some.injEq, Prod.mk.injEq] at hf
      omega
    · exact absurd hf (by simp)
  · rintro ⟨hodd, h1, h2, hb⟩
    refine ⟨a - 1, by omega, ?_⟩
    rw [show a - 1 + 1 = a from by omega, show a - 1 + 2 = a + 1 from by omega,
      if_pos ⟨hodd, h2⟩, hb]

/-- Count of odd routers: the access-link list has one entry per odd
router, `ceil(total / 2)` in all. -/
theorem flatPairAccessLinks_length (total group : Nat) :
    (flatPairAccessLinks total group).length = ceilDiv total 2 := by
  induction total with
  | zero => rfl
  | succ n ih =>
    unfold flatPairAccessLinks at ih ⊢
    rw [List.range_succ, List.filterMap_append, List.length_append, ih]
    by_cases h : (n + 1) % 2 = 1
    · simp only [List.filterMap_cons, List.filterMap_nil, if_pos h,
        List.length_cons, List.length_nil, ceilDiv]
      omega
    · simp only [List.filterMap_cons, List.filterMap_nil, if_neg h,
        List.length_nil, ceilDiv]
      omega

/-- C4: in flat-pair mode with `total ≥ 1` routers, exactly
`ceil(total / 2)` routers are linked to an access switch and they are
precisely the odd-numbered ones; when `total` is even every odd router is
paired with its even successor; and the last odd router has no pairing link
if and only if `total` is odd. -/
theorem C4_flat_pair_topology (total group : Nat) (htotal : 1 ≤ total) :
    (flatPairAccessLinks total group).length = ceilDiv total 2
    ∧ (∀ a sw, (a, sw) ∈ flatPairAccessLinks total group →
        a % 2 = 1 ∧ 1 ≤ a ∧ a ≤ total)
    ∧ (∀ a, a % 2 = 1 → 1 ≤ a → a ≤ total →
        (a, (a - 1) / group + 1) ∈ flatPairAccessLinks total group)
    ∧ (total % 2 = 0 → ∀ a, a % 2 = 1 → a ≤ total →
        (a, a + 1) ∈ flatPairPairLinks total)
    ∧ ((∀ b, (lastOddRouter total, b) ∉ flatPairPairLinks total) ↔
        total % 2 = 1) := by
  refine ⟨flatPairAccessLinks_length total group, ?_, ?_, ?_, ?_⟩
  · intro a sw hmem
    have h := (mem_flatPairAccessLinks total group a sw).mp hmem
    exact ⟨h.1, h.2.1, h.2.2.1⟩
  · intro a hodd h1 h2
    exact (mem_flatPairAccessLinks total group a _).mpr ⟨hodd, h1, h2, rfl⟩
  · intro heven a hodd hle
    exact (mem_flatPairPairLinks total a _).mpr ⟨hodd, by omega, by omega, rfl⟩
  · constructor
    · intro hnone
      by_contra hpar
      have hev : total % 2 = 0 := by omega
      have hlast : lastOddRouter total = total - 1 := by
        unfold lastOddRouter
        rw [if_neg (by omega)]
      have : (lastOddRouter total, total) ∈ flatPairPairLinks total := by
        rw [hlast]
        exact (mem_flatPairPairLinks total _ _).mpr
          ⟨by omega, by omega, by omega, by omega⟩
      exact hnone total this
    · intro hpar b hmem
      have h := (mem_flatPairPairLinks total _ _).mp hmem
      unfold lastOddRouter at h
      rw [if_pos hpar] at h
      omega

/-- Witness for C4 at `total = 5, group = 20`: 3 of the 5 routers attach to
the fabric, and the last odd router (R5) has no pairing link. -/
theorem C4_flat_pair_topology_witness :
    (flatPairAccessLinks 5 20).length = ceilDiv 5 2
    ∧ ((∀ b, (lastOddRouter 5, b) ∉ flatPairPairLinks 5) ↔ 5 % 2 = 1) :=
  ⟨(C4_flat_pair_topology 5 20 (by decide)).1,
   (C4_flat_pair_topology 5 20 (by decide)).2.2.2.2⟩

/-- Parameters of a DMVPN synthesis run over the flat underlay.  `hubs`
models `args.dmvpn_hubs_list`; the empty list models both `None` and an
empty parse result (falsy in the `if hubs_list:` tests). -/
structure DmvpnParams where
  nodes : Nat
  hubs : List Int
  nbma : IPv4Net
  tunnel : IPv4Net
deriving Repr, DecidableEq

/-- Total router count (`render.py:1281-1287`, `render.py:1645-1651`): with
an explicit hub list `nodes` is the total router count; otherwise `nodes`
counts the spokes and one extra router is added as the hub. -/
def dmvpnTotalRouters (p : DmvpnParams) : Nat :=
  if p.hubs ≠ [] then p.nodes else p.nodes + 1

/-- Designated hub set (`render.py:1376-1379`, `render.py:1909-1912`):
defaults to router 1 when no hub list was given. -/
def dmvpnHubSet (p : DmvpnParams) : List Int :=
  if p.hubs ≠ [] then p.hubs else [1]

/-- The shared `hub_info` list (`render.py:1381-1390`,
`render.py:1914-1927`): one pass over routers `1..total` collecting
`(nbma_base + r, tunnel_base + r)` for every hub router `r`
(`render.py:1920-1925`: host `r` of the NBMA and tunnel pools). -/
def hubInfo (p : DmvpnParams) : List (Nat × Nat) :=
  (List.range (dmvpnTotalRouters p)).filterMap fun idx =>
    if ((idx + 1 : Nat) : Int) ∈ dmvpnHubSet p then
      some (p.nbma.addr + (idx + 1), p.tunnel.addr + (idx + 1))
    else none

/-- The rendering context handed to one router's configuration template
(`render.py:1392-1405`, `render.py:1978-1992`). -/
structure RouterCtx where
  hostname : String
  is_hub : Bool
  hub_info : List (Nat × Nat)
deriving Repr, DecidableEq

/-- Per-router template contexts of the DMVPN render loop
(`render.py:1392-1405` live, `render.py:1933-1992` offline): every router
R1..Rtotal gets `is_hub` and the one shared `hub_info` list. -/
def dmvpnContexts (p : DmvpnParams) : List RouterCtx :=
  (List.range (dmvpnTotalRouters p)).map fun idx =>
    { hostname := s!"R{idx + 1}",
      is_hub := decide (((idx + 1 : Nat) : Int) ∈ dmvpnHubSet p),
      hub_info := hubInfo p }

/-- C5: in DMVPN mode the NBMA and tunnel addresses of every designated hub
appear in the `hub_info` list, and every router's rendered context (hubs
and spokes alike) carries that same complete list, collected in a single
pass. -/
theorem C5_hub_info_complete (p : DmvpnParams) (ctx : RouterCtx)
    (hctx : ctx ∈ dmvpnContexts p) (h : Int) (hmem : h ∈ dmvpnHubSet p)
    (h1 : 1 ≤ h) (h2 : h ≤ (dmvpnTotalRouters p : Int)) :
    ctx.hub_info = hubInfo p
    ∧ (p.nbma.addr + h.toNat, p.tunnel.addr + h.toNat) ∈ ctx.hub_info := by
  obtain ⟨idx, _, rfl⟩ := List.mem_map.mp hctx
  refine ⟨rfl, ?_⟩
  show _ ∈ hubInfo p
  refine List.mem_filterMap.mpr ⟨h.toNat - 1, List.mem_range.mpr (by omega), ?_⟩
  rw [show h.toNat - 1 + 1 = h.toNat from by omega]
  rw [if_pos (by rw [Int.toNat_of_nonneg (by omega)]; exact hmem)]

/-- Witness for C5: 4 routers, explicit hub list `[1]`; the spoke R3's
context contains hub 1's NBMA and tunnel addresses. -/
theorem C5_hub_info_complete_witness :
    ({ hostname := "R3", is_hub := false,
       hub_info := [(0x0A0A0001, 0xAC140001)] } : RouterCtx).hub_info =
        hubInfo ⟨4, [1], ⟨0x0A0A0000, 16⟩, ⟨0xAC140000, 16⟩⟩
    ∧ (0x0A0A0000 + (1 : Int).toNat, 0xAC140000 + (1 : Int).toNat) ∈
        ({ hostname := "R3", is_hub := false,
           hub_info := [(0x0A0A0001, 0xAC140001)] } : RouterCtx).hub_info :=
  C5_hub_info_complete ⟨4, [1], ⟨0x0A0A0000, 16⟩, ⟨0xAC140000, 16⟩⟩
    { hostname := "R3", is_hub := false,
      hub_info := [(0x0A0A0001, 0xAC140001)] }
    (by decide) 1 (by decide) (by decide) (by decide)

/-- Highest valid hub number for a DMVPN underlay (`main.py:614-626`):
for `flat-pair` the highest odd router number, otherwise the total router
count given on the command line. -/
def maxValidHub (nodes : Nat) (underlay : String) : Int :=
  if underlay = "flat-pair" then
    (if nodes % 2 = 1 then (nodes : Int) else (nodes : Int) - 1)
  else (nodes : Int)

/-- Hub-range validation in `main` (`main.py:609-631`): runs only when an
explicit hub list was given, and rejects any hub below 1 or above the
underlay's highest valid number.  `parser.error` (which aborts the process
before any Renderer or offline builder runs) is modelled as `some`
message. -/
def validate_dmvpn_hubs (nodes : Nat) (hubs : List Int) (underlay : String) :
    Option String :=
  if hubs ≠ [] then
    if underlay = "flat-pair" then
      let max_odd_rnum : Int :=
        if nodes % 2 = 1 then (nodes : Int) else (nodes : Int) - 1
      let out_of_range := hubs.filter fun h => decide (h < 1 ∨ h > max_odd_rnum)
      if out_of_range ≠ [] then
        some (s!"Invalid --dmvpn-hubs: hub router(s) {out_of_range} do not exist as DMVPN endpoints " ++
          s!"in flat-pair (endpoints are odd routers R1..R{max_odd_rnum}; total routers R1..R{nodes})")
      else none
    else
      let out_of_range := hubs.filter fun h => decide (h < 1 ∨ h > (nodes : Int))
      if out_of_range ≠ [] then
        some s!"Invalid --dmvpn-hubs: hub router(s) {out_of_range} do not exist (lab has R1..R{nodes})"
      else none
  else none

/-- The DMVPN entry path: `main` validates the designated hubs
(`main.py:609-631`) before any topology object is built
(`render.py:1258-1457`, `render.py:1619-2242`). -/
def dmvpnMain (p : DmvpnParams) (underlay : String) :
    Except String (List RouterCtx) :=
  match validate_dmvpn_hubs p.nodes p.hubs underlay with
  | some e => Except.error e
  | none => Except.ok (dmvpnContexts p)

/-- C9: a designated hub number below 1 or above the underlay's highest
valid router/endpoint number aborts the DMVPN run with a configuration
error before any object is created. -/
theorem C9_hub_out_of_range_aborts (p : DmvpnParams) (underlay : String)
    (h : Int) (hmem : h ∈ p.hubs)
    (hbad : h < 1 ∨ h > maxValidHub p.nodes underlay) :
    ∃ e, dmvpnMain p underlay = Except.error e := by
  have hne : p.hubs ≠ [] := List.ne_nil_of_mem hmem
  unfold dmvpnMain validate_dmvpn_hubs
  rw [if_pos hne]
  by_cases hu : underlay = "flat-pair"
  · rw [if_pos hu]
    have hbad' : h < 1 ∨ h > (if p.nodes % 2 = 1 then (p.nodes : Int)
        else (p.nodes : Int) - 1) := by
      unfold maxValidHub at hbad
      rw [if_pos hu] at hbad
      exact hbad
    have hf : h ∈ p.hubs.filter fun x =>
        decide (x < 1 ∨ x > (if p.nodes % 2 = 1 then (p.nodes : Int)
          else (p.nodes : Int) - 1)) :=
      List.mem_filter.mpr ⟨hmem, by simpa using hbad'⟩
    rw [if_pos (List.ne_nil_of_mem hf)]
    exact ⟨_, rfl⟩
  · rw [if_neg hu]
    have hbad' : h < 1 ∨ h > (p.nodes : Int) := by
      unfold maxValidHub at hbad
      rw [if_neg hu] at hbad
      exact hbad
    have hf : h ∈ p.hubs.filter fun x => decide (x < 1 ∨ x > (p.nodes : Int)) :=
      List.mem_filter.mpr ⟨hmem, by simpa using hbad'⟩
    rw [if_pos (List.ne_nil_of_mem hf)]
    exact ⟨_, rfl⟩

/-- Witness for C9: hub 9 in a 4-router flat-underlay lab is rejected. -/
theorem C9_hub_out_of_range_aborts_witness :
    ∃ e, dmvpnMain ⟨4, [9], ⟨0x0A0A0000, 16⟩, ⟨0xAC140000, 16⟩⟩ "flat" =
      Except.error e :=
  C9_hub_out_of_range_aborts ⟨4, [9], ⟨0x0A0A0000, 16⟩, ⟨0xAC140000, 16⟩⟩
    "flat" 9 (by decide) (by right; decide)

/-- C10: with the flat underlay and no explicit hub list, the DMVPN
topology has `nodes + 1` routers of which exactly R1 is the hub (all other
routers are spokes); with an explicit hub list, `nodes` is the total router
count. -/
theorem C10_dmvpn_router_count (p : DmvpnParams) :
    (p.hubs = [] →
      dmvpnTotalRouters p = p.nodes + 1
      ∧ (dmvpnContexts p).length = p.nodes + 1
      ∧ ∀ i (hi : i < (dmvpnContexts p).length),
          ((dmvpnContexts p).get ⟨i, hi⟩).is_hub = decide (i = 0))
    ∧ (p.hubs ≠ [] →
      dmvpnTotalRouters p = p.nodes
      ∧ (dmvpnContexts p).length = p.nodes) := by
  constructor
  · intro hemp
    have ht : dmvpnTotalRouters p = p.nodes + 1 := by
      unfold dmvpnTotalRouters
      simp [hemp]
    refine ⟨ht, by simp [dmvpnContexts, ht], ?_⟩
    intro i hi
    have hs : dmvpnHubSet p = [1] := by
      unfold dmvpnHubSet
      simp [hemp]
    simp only [dmvpnContexts, List.get_eq_getElem, List.getElem_map,
      List.getElem_range, hs]
    rw [decide_eq_decide]
    simp only [List.mem_singleton]
    omega
  · intro hne
    have ht : dmvpnTotalRouters p = p.nodes := by
      unfold dmvpnTotalRouters
      simp [hne]
    exact ⟨ht, by simp [dmvpnContexts, ht]⟩

/-- Witness for C10: both branches at concrete parameter sets (3 spokes
with the implicit hub; 4 routers with an explicit hub list). -/
theorem C10_dmvpn_router_count_witness :
    (dmvpnTotalRouters ⟨3, [], ⟨0x0A0A0000, 16⟩, ⟨0xAC140000, 16⟩⟩ = 3 + 1
      ∧ (dmvpnContexts ⟨3, [], ⟨0x0A0A0000, 16⟩, ⟨0xAC140000, 16⟩⟩).length = 3 + 1
      ∧ ∀ i (hi : i < (dmvpnContexts ⟨3, [], ⟨0x0A0A0000, 16⟩, ⟨0xAC140000, 16⟩⟩).length),
          ((dmvpnContexts ⟨3, [], ⟨0x0A0A0000, 16⟩, ⟨0xAC140000, 16⟩⟩).get ⟨i, hi⟩).is_hub
            = decide (i = 0))
    ∧ dmvpnTotalRouters ⟨4, [2], ⟨0x0A0A0000, 16⟩, ⟨0xAC140000, 16⟩⟩ = 4 :=
  ⟨(C10_dmvpn_router_count ⟨3, [], ⟨0x0A0A0000, 16⟩, ⟨0xAC140000, 16⟩⟩).1 rfl,
   ((C10_dmvpn_router_count ⟨4, [2], ⟨0x0A0A0000, 16⟩, ⟨0xAC140000, 16⟩⟩).2
     (by decide)).1⟩

/-- The platform coordinate ceiling (`render.py:1656-1659`): the CML API
enforces `x <= 15000` (and similarly for `y`). -/
def maxCoord : Int := 15000

/-- Access-switch x-coordinate in the offline flat builder
(`render.py:3055`, identically `render.py:3592` for flat-pair): no
rescaling and no clamping are applied. -/
def flatAccessSwitchX (distance : Int) (i : Nat) : Int :=
  ((i : Int) + 1) * distance * 3

/-- Router (x, y) in the offline flat builder (`render.py:3209-3210`,
identically `render.py:3783-3784` for flat-pair): no rescaling and no
clamping are applied. -/
def flatRouterXY (distance : Int) (group idx : Nat) : Int × Int :=
  (((idx / group : Nat) + 1 : Int) * distance * 3,
   ((idx % group : Nat) + 1 : Int) * distance)

/-- Rescaled x-step of the offline DMVPN builder (`render.py:1780-1783`):
`max(1, min(distance * 3, max_coord // max(1, num_access + 1)))`. -/
def dmvpnSwStepX (distance : Int) (num_access : Nat) : Int :=
  max 1 (min (distance * 3) (maxCoord / (max 1 ((num_access : Int) + 1))))

/-- Rescaled y-step of the offline DMVPN builder (`render.py:1784-1785`):
`max(1, min(distance, max_coord // max(1, group + 2)))`. -/
def dmvpnRouterStepY (distance : Int) (group : Nat) : Int :=
  max 1 (min distance (maxCoord / (max 1 ((group : Int) + 2))))

/-- NBMA access-switch (x, y) in the offline DMVPN builder: x is clamped
with `min(max_coord, ...)` (`render.py:1813`), y is the literal `0`
(`render.py:1818`). -/
def dmvpnAccessSwXY (distance : Int) (num_access sidx : Nat) : Int × Int :=
  (min maxCoord (((sidx : Int) + 1) * dmvpnSwStepX distance num_access), 0)

/-- OOB access-switch (x, y) in the offline DMVPN builder
(`render.py:1888-1889`): `(-200 - (i+1)*distance, (i+1)*distance)`,
with no rescaling and no clamping. -/
def dmvpnOobAccessSwXY (distance : Int) (i : Nat) : Int × Int :=
  (-200 - ((i : Int) + 1) * distance, ((i : Int) + 1) * distance)

/-- Router (x, y) in the offline DMVPN builder (`render.py:1999-2002`):
both coordinates clamped with `min(max_coord, ...)`. -/
def dmvpnRouterXY (distance : Int) (num_access group idx : Nat) : Int × Int :=
  (min maxCoord (((idx / group : Nat) + 1 : Int) * dmvpnSwStepX distance num_access),
   min maxCoord (((idx % group : Nat) + 1 : Int) * dmvpnRouterStepY distance group))

/-- C6 (amended): in the offline DMVPN builder the rescaled-and-clamped
coordinates — the NBMA access-switch x (its y is the constant 0) and both
router coordinates — always land in `[1, 15000]`, for every distance,
group size, switch index and router index; no other offline coordinates
are rescaled: the DMVPN builder's OOB access switches are placed at
unclamped `(-200 - (i+1)*distance, (i+1)*distance)` and exceed the ceiling
already at `distance = 1000` with 32 OOB switches, and the offline flat
builder's grid can exceed it too (see the counterexample). -/
theorem C6_dmvpn_offline_coords_bounded (distance : Int)
    (num_access group sidx idx : Nat) :
    (1 ≤ (dmvpnAccessSwXY distance num_access sidx).1
      ∧ (dmvpnAccessSwXY distance num_access sidx).1 ≤ maxCoord
      ∧ (dmvpnAccessSwXY distance num_access sidx).2 = 0)
    ∧ (1 ≤ (dmvpnRouterXY distance num_access group idx).1
      ∧ (dmvpnRouterXY distance num_access group idx).1 ≤ maxCoord)
    ∧ (1 ≤ (dmvpnRouterXY distance num_access group idx).2
      ∧ (dmvpnRouterXY distance num_access group idx).2 ≤ maxCoord)
    ∧ (dmvpnOobAccessSwXY 1000 31 = (-32200, 32000)
      ∧ maxCoord < 32000 ∧ -32200 < -maxCoord) := by
  have hsx : 1 ≤ dmvpnSwStepX distance num_access := le_max_left 1 _
  have hsy : 1 ≤ dmvpnRouterStepY distance group := le_max_left 1 _
  have hmc : (1 : Int) ≤ maxCoord := by norm_num [maxCoord]
  refine ⟨⟨?_, min_le_left _ _, rfl⟩, ⟨?_, min_le_left _ _⟩,
    ⟨?_, min_le_left _ _⟩, by decide, by decide, by decide⟩
  · refine le_min hmc ?_
    have h0 : (0 : Int) ≤ (sidx : Int) := Int.natCast_nonneg sidx
    nlinarith
  · refine le_min hmc ?_
    have h0 : (0 : Int) ≤ ((idx / group : Nat) : Int) := Int.natCast_nonneg _
    nlinarith
  · refine le_min hmc ?_
    have h0 : (0 : Int) ≤ ((idx % group : Nat) : Int) := Int.natCast_nonneg _
    nlinarith

/-- C6 counterexample: `nodes = 520, group = 20, distance = 200` passes
every guardrail (26 access switches, within the 520-node license cap,
`main.py:602-607`), yet the offline flat builder places access switch SW26
and routers R501..R520 at `x = 15600 > 15000`. -/
theorem C6_flat_offline_coords_counterexample :
    validate_flat_topology 520 20 = Except.ok 26
    ∧ 520 ≤ 520
    ∧ flatAccessSwitchX 200 25 = 15600
    ∧ (flatRouterXY 200 20 519).1 = 15600
    ∧ maxCoord < 15600 := by
  refine ⟨rfl, by norm_num, by decide, by decide, by decide⟩

/-- Offline output emission (`render.py:3468-3477` flat,
`render.py:2224-2233` DMVPN): if the target exists and `--overwrite` was
not given, a `TopogenError` is raised before anything is written;
otherwise one `write_text` call replaces the whole file.  The result pairs
the file's final content with whether the error was raised. -/
def writeOfflineOutput (existing : Option String) (overwrite : Bool)
    (content : String) : Option String × Bool :=
  if existing.isSome && !overwrite then (existing, true)
  else (some content, false)

/-- C7: when the output path exists and overwrite permission was not given,
emission fails and the existing content is untouched; with permission the
file is replaced; a fresh path is always written. -/
theorem C7_overwrite_protection (old content : String) (ov : Bool) :
    writeOfflineOutput (some old) false content = (some old, true)
    ∧ writeOfflineOutput (some old) true content = (some content, false)
    ∧ writeOfflineOutput none ov content = (some content, false) := by
  refine ⟨rfl, rfl, ?_⟩
  cases ov <;> rfl

/-- A single line of the offline YAML document.  The generation timestamp
(`datetime.now(timezone.utc)`, `render.py:3197`, and the clock string of
`_pki_clock_set_today`, `render.py:286-291`) is the one run-varying input
of `offline_flat_yaml`, so a line is either fixed text or text embedding
the timestamp between a fixed head and tail. -/
inductive Line where
  | lit (s : String)
  | stamped (pre post : String)
deriving Repr, DecidableEq

/-- Rendering of a line once the generation timestamp `d` is known. -/
def Line.render (d : String) : Line → String
  | Line.lit s => s
  | Line.stamped pre post => pre ++ d ++ post

/-- Single-quote character, used by the YAML emitters. -/
def sq : String := String.singleton (Char.ofNat 39)

/-- Python `html.escape(s, quote=True)` (used by `_intent_notes_lines`,
`render.py:175`): `&`, `<`, `>`, `"` and the single quote, in that
order. -/
def htmlEscape (s : String) : String :=
  ((((s.replace "&" "&amp;").replace "<" "&lt;").replace ">" "&gt;").replace
    "\"" "&quot;").replace sq "&#x27;"

/-- Package version (`render.py:129-138`): resolved from installed package
metadata, hence constant within one installation and across the two runs a
claim compares. -/
def TOPGEN_VERSION : String := "unknown"

/-- `_intent_annotation_lines` (`render.py:141-167`): a hidden off-canvas
text annotation embedding the generating parameters. -/
def intentAnnotationLines (intent : String) : List String :=
  let content := intent.replace sq (sq ++ sq)
  ["annotations:",
   "  - border_color: " ++ sq ++ "#FFFFFF" ++ sq,
   "    border_style: " ++ sq ++ sq,
   "    color: " ++ sq ++ "#FFFFFF" ++ sq,
   "    rotation: 0",
   "    text_bold: false",
   "    text_content: " ++ sq ++ content ++ sq,
   "    text_font: monospace",
   "    text_italic: false",
   "    text_size: 1",
   "    text_unit: pt",
   "    thickness: 1",
   "    type: text",
   "    x1: -9999",
   "    y1: -9999",
   "    z_index: 0",
   "smart_annotations: []"]

/-- `_intent_notes_lines` (`render.py:170-180`): the same intent inside a
hidden HTML span in `lab.notes`. -/
def intentNotesLines (intent : String) : List String :=
  let hidden_span := "<span style=\"color: white; font-size: 1pt; opacity: 0;\">"
    ++ htmlEscape intent ++ "</span>"
  ["  notes: |-", "    " ++ hidden_span]

/-- Modelled from the spec: the packaged Jinja2 device templates are not
under `src/`.  Spec section 4.5 states that rendering is a pure function of
the node context "plus wall-clock timestamp used only for a human-readable
'generated at' comment", and that the rendered text closes with a final
`end` marker (section 4.5's splicing rule).  The model renders the
hostname, the generated-at comment (the single timestamp-bearing line, an
IOS `!` comment), the domain name, the loopback and data interfaces, the
RSA key line the CA post-processing of `render.py:3313-3317` expects, and
the final `end`.  No line contains a newline character. -/
def renderDeviceTemplate (domainname hostname loopback : String)
    (ifaces : List (Nat × String)) : List Line :=
  [Line.lit ("hostname " ++ hostname),
   Line.stamped "! Generated on " "",
   Line.lit ("ip domain name " ++ domainname),
   Line.lit "interface Loopback0",
   Line.lit (" ip address " ++ loopback)]
  ++ (ifaces.flatMap fun si =>
      [Line.lit ("interface GigabitEthernet0/" ++ toString si.1),
       Line.lit (" ip address " ++ si.2)])
  ++ [Line.lit "crypto key generate rsa modulus 2048",
      Line.lit "end"]

/-- `_pki_client_clock_eem_lines` (`render.py:294-338`): the one-shot
clock-bootstrap EEM applet; action 2.1 embeds
`_pki_clock_set_today() = "00:00:01 " + strftime date`
(`render.py:286-291`), the generation-time clock fallback. -/
def pkiClientClockEemLines : List Line :=
  [Line.lit "!",
   Line.lit "event manager environment TIME_DONE 0",
   Line.lit "!",
   Line.lit "event manager applet CLIENT-PKI-SET-CLOCK authorization bypass",
   Line.lit " event timer countdown time 90",
   Line.lit " action 0.1 cli command \"enable\"",
   Line.lit " action 0.2 syslog msg \"EEM CLIENT-PKI-SET-CLOCK: executed [step 0.2]\"",
   Line.lit " action 0.3 cli command \"terminal length 0\"",
   Line.lit " action 0.4 cli command \"show event manager environment | include TIME_DONE\"",
   Line.lit " action 0.5 regexp \"TIME_DONE 1\" \"$_cli_result\" match",
   Line.lit " action 0.6 if $_regexp_result eq \"1\"",
   Line.lit "  action 0.7  exit",
   Line.lit "  action 0.8 end",
   Line.lit " action 1.0 cli command \"show ntp status\"",
   Line.lit " action 1.1 regexp \"Clock is synchronized\" \"$_cli_result\" match",
   Line.lit " action 1.2 if $_regexp_result eq \"1\"",
   Line.lit "  action 1.3  cli command \"configure terminal\"",
   Line.lit "  action 1.4  cli command \"event manager environment TIME_DONE 1\"",
   Line.lit "  action 1.5  cli command \"no event manager applet CLIENT-PKI-SET-CLOCK\"",
   Line.lit "  action 1.6  cli command \"end\"",
   Line.lit "  action 1.7  cli command \"write memory\"",
   Line.lit "  action 1.8  syslog msg \"EEM CLIENT-PKI-SET-CLOCK: TIME_DONE set (NTP synced) [step 1.8]\"",
   Line.lit "  action 1.9  exit",
   Line.lit "  action 1.99 end",
   Line.lit "! Hardcoded clock set (no regexp) so CVAC applies; NTP takes over later.",
   Line.lit " action 2.0 cli command \"configure terminal\"",
   Line.stamped " action 2.1 cli command \"do clock set 00:00:01 " "\"",
   Line.lit " action 2.2 cli command \"end\"",
   Line.lit " action 3.0 cli command \"configure terminal\"",
   Line.lit " action 3.1 cli command \"event manager environment TIME_DONE 1\"",
   Line.lit " action 3.2 cli command \"no event manager applet CLIENT-PKI-SET-CLOCK\"",
   Line.lit " action 3.3 cli command \"end\"",
   Line.lit " action 3.4 cli command \"write memory\"",
   Line.lit " action 3.5 syslog msg \"EEM CLIENT-PKI-SET-CLOCK: TIME_DONE set (clock authoritative) [step 3.5]\"",
   Line.lit "end",
   Line.lit "!"]

/-- `_pki_ca_authenticate_eem_lines` (`render.py:390-417`). -/
def pkiCaAuthenticateEemLines : List Line :=
  [Line.lit "!",
   Line.lit "event manager applet CA-ROOT-AUTHENTICATE authorization bypass",
   Line.lit " event syslog pattern \"Certificate server now enabled\"",
   Line.lit " action 0.1 cli command \"enable\"",
   Line.lit " action 0.2 cli command \"terminal length 0\"",
   Line.lit " action 0.3 cli command \"show crypto pki certificates CA-ROOT-SELF\"",
   Line.lit " action 0.4 regexp \"CA Certificate\" \"$_cli_result\" match",
   Line.lit " action 0.5 if $_regexp_result eq \"1\"",
   Line.lit "  action 0.6  exit",
   Line.lit "  action 0.7 end",
   Line.lit " action 0.8 cli command \"configure terminal\"",
   Line.lit " action 0.9 cli command \"crypto pki authenticate CA-ROOT-SELF\" pattern \"yes/no\"",
   Line.lit " action 0.91 wait 2",
   Line.lit " action 0.92 cli command \"yes\" pattern \".*\"",
   Line.lit " action 0.93 cli command \" \"",
   Line.lit " action 0.94 cli command \"end\"",
   Line.lit " action 0.95 cli command \"write memory\"",
   Line.lit " action 0.96 cli command \"configure terminal\"",
   Line.lit " action 0.97 cli command \"no event manager applet CA-ROOT-AUTHENTICATE\"",
   Line.lit " action 0.98 cli command \"end\"",
   Line.lit " action 0.99 cli command \"write memory\"",
   Line.lit "!",
   Line.lit "end"]

/-- `_pki_ca_self_enroll_block_lines` (`render.py:420-443`): the CA's
self-enrollment block; the `do clock set` line embeds
`_pki_clock_set_today()`. -/
def pkiCaSelfEnrollBlockLines (hostname domainname ca_scep_url : String) :
    List Line :=
  let fqdn := hostname ++ "." ++ domainname
  [Line.lit "!",
   Line.stamped "do clock set 00:00:01 " "",
   Line.lit "!",
   Line.lit "ip http secure-server",
   Line.lit "ip http secure-server trustpoint CA-ROOT-SELF",
   Line.lit "!",
   Line.lit "crypto key generate rsa modulus 2048 label CA-ROOT-SELF",
   Line.lit "!",
   Line.lit "crypto pki trustpoint CA-ROOT-SELF",
   Line.lit (" enrollment url " ++ ca_scep_url),
   Line.lit " enrollment retry count 15",
   Line.lit " enrollment retry period 60",
   Line.lit " auto-enroll 70 regenerate",
   Line.lit (" subject-name cn=" ++ fqdn),
   Line.lit (" subject-alt-name " ++ fqdn),
   Line.lit " revocation-check none",
   Line.lit " rsakeypair CA-ROOT-SELF",
   Line.lit "!"]

/-- Source test `line.strip() == "end"` (`render.py:488`, `render.py:3310`)
lifted to lines.  The two timestamp-bearing line shapes are an IOS `!`
comment and an EEM `action` command, so their stripped text is never
`end`. -/
def isEndLine : Line → Bool
  | Line.lit s => s.trim == "end"
  | Line.stamped _ _ => false

/-- Index of the last line whose stripped text is `end`
(`render.py:486-489`). -/
def findLastEndIdx (ls : List Line) : Option Nat :=
  ((List.range ls.length).filter
    (fun i => isEndLine (ls.getD i (Line.lit "")))).getLast?

/-- `_inject_pki_client_trustpoint` (`render.py:446-493`) with the default
arguments used by `offline_flat_yaml` (`render.py:3203-3207`): inserts the
client trust block plus the clock-bootstrap EEM applet before the last
`end` line, appending when no `end` exists. -/
def injectPkiClientTrustpoint (rendered : List Line)
    (hostname domainname ca_url : String) : List Line :=
  let fqdn := hostname ++ "." ++ domainname
  let block :=
    [Line.lit "!",
     Line.stamped "do clock set 00:00:01 " "",
     Line.lit "!",
     Line.lit "ip http secure-server",
     Line.lit "ip http secure-server trustpoint CA-ROOT-SELF",
     Line.lit "!",
     Line.lit "crypto key generate rsa modulus 2048 label CA-ROOT",
     Line.lit "!",
     Line.lit "crypto pki trustpoint CA-ROOT-SELF",
     Line.lit (" enrollment url " ++ ca_url),
     Line.lit " enrollment retry count 15",
     Line.lit " enrollment retry period 60",
     Line.lit " revocation-check none",
     Line.lit " rsakeypair CA-ROOT",
     Line.lit (" subject-name cn=" ++ fqdn),
     Line.lit (" subject-alt-name " ++ fqdn),
     Line.lit " auto-enroll 70 regenerate",
     Line.lit "!",
     Line.lit "alias configure authc crypto pki authenticate CA-ROOT-SELF",
     Line.lit "!"]
    ++ pkiClientClockEemLines
  match findLastEndIdx rendered with
  | some i => rendered.take i ++ block ++ rendered.drop i
  | none => rendered ++ block

/-- Replacement of the first generic RSA key line in the CA's base
configuration (`render.py:3313-3317`). -/
def isRsaKeyLine : Line → Bool
  | Line.lit s => s.trim == "crypto key generate rsa modulus 2048"
  | Line.stamped _ _ => false

/-- First-match replacement loop of `render.py:3314-3317`. -/
def replaceFirstRsaKey : List Line → List Line
  | [] => []
  | l :: rest =>
    if isRsaKeyLine l then
      Line.lit "crypto key generate rsa modulus 2048 label CA-ROOT.server" :: rest
    else l :: replaceFirstRsaKey rest

/-- `pki_config_lines` of the CA block (`render.py:3320-3336`). -/
def pkiConfigLines : List Line :=
  [Line.lit "ntp master 6",
   Line.lit "!",
   Line.lit "ip http server",
   Line.lit "ip http secure-server",
   Line.lit "ip http secure-server trustpoint CA-ROOT-SELF",
   Line.lit "!",
   Line.lit "crypto pki server CA-ROOT",
   Line.lit " database level complete",
   Line.lit " no database archive",
   Line.lit " grant auto",
   Line.lit " lifetime certificate 7300",
   Line.lit " lifetime ca-certificate 7300",
   Line.lit " database url flash:",
   Line.lit " no shutdown",
   Line.lit "!"]

/-- CLI parameters consumed by `offline_flat_yaml` (`render.py:2930-3480`);
field names follow the `args` namespace. -/
structure FlatParams where
  labname : String
  mode : String
  template : String
  dev_template : String
  nodes : Nat
  flat_group_size : Nat
  distance : Int
  enable_vrf : Bool
  pair_vrf : Option String
  loopback_255 : Bool
  gi0_zero : Bool
  cml_version : String
  enable_mgmt : Bool
  mgmt_cidr : String
  mgmt_gw : Option String
  mgmt_slot : Nat
  mgmt_vrf : Option String
  mgmt_bridge : Bool
  ntp_server : Option String
  ntp_inband : Bool
  ntp_vrf : Option String
  ntp_oob_server : Option String
  remark : Option String
  offline_yaml : String
  pki_enabled : Bool
deriving Repr, DecidableEq

/-- Configuration fields of `Config` consumed by the offline flat path. -/
structure RenderCfg where
  domainname : String
deriving Repr, DecidableEq

/-- Effective group size, `max(1, args.flat_group_size)`
(`render.py:2949`). -/
def flatGroup (p : FlatParams) : Nat := max 1 p.flat_group_size

/-- Access-switch count (`render.py:2950` via `validate_flat_topology`;
equals `ceil(nodes / group)` whenever validation passes — a failed
validation raises before any line is built). -/
def flatNumSw (p : FlatParams) : Nat := ceilDiv p.nodes (flatGroup p)

/-- Routers attached to access switch `i` (`render.py:3033-3037`):
`min((i+1)*group, total) - (i*group + 1) + 1`, truncated at zero. -/
def perSwCount (p : FlatParams) (i : Nat) : Nat :=
  min ((i + 1) * flatGroup p) p.nodes - i * flatGroup p

/-- OOB access-switch count (`render.py:3074-3079`): `ceil(total / group)`
when management is enabled. -/
def flatNumOob (p : FlatParams) : Nat :=
  if p.enable_mgmt then ceilDiv p.nodes (flatGroup p) else 0

/-- Numeric node identifier of router `R(idx+1)`: identifiers are assigned
sequentially (`render.py:3021-3022`) to SW0, SW1..SWn, then (with
management) ext-conn-mgmt, SWoob0, SWoob1..SWoobm, then the routers. -/
def routerBaseNid (p : FlatParams) : Nat :=
  1 + flatNumSw p
    + (if p.enable_mgmt then
        (if p.mgmt_bridge then 1 else 0) + 1 + flatNumOob p
      else 0)

/-- Numeric node identifier of the CA-ROOT node (created after all
routers, `render.py:3240-3242`). -/
def caNid (p : FlatParams) : Nat := routerBaseNid p + p.nodes

/-- Data-plane base octets (`render.py:3153`). -/
def flatGBase (p : FlatParams) : String :=
  if p.gi0_zero then "10.0" else "10.10"

/-- Loopback base octets (`render.py:3154`). -/
def flatLBase (p : FlatParams) : String :=
  if p.loopback_255 then "10.255" else "10.20"

/-- Data-plane address of router `n` (`render.py:3159-3160`). -/
def flatGIp (p : FlatParams) (n : Nat) : String :=
  flatGBase p ++ "." ++ toString (addr_parts n).1 ++ "." ++ toString (addr_parts n).2

/-- Loopback address of router `n` (`render.py:3159-3161`). -/
def flatLIp (p : FlatParams) (n : Nat) : String :=
  flatLBase p ++ "." ++ toString (addr_parts n).1 ++ "." ++ toString (addr_parts n).2

/-- The `args_bits` summary embedded into the description
(`render.py:2972-3008`), in source order. -/
def flatArgsBits (p : FlatParams) : List String :=
  ["nodes=" ++ toString p.nodes, "-m " ++ p.mode, "-T " ++ p.template]
  ++ (if p.dev_template ≠ p.template then ["--device-template " ++ p.dev_template] else [])
  ++ (if p.enable_vrf then
      ["--vrf"] ++ (match p.pair_vrf with
        | some v => ["--pair-vrf " ++ v]
        | none => [])
    else [])
  ++ (if p.mode.startsWith "flat" then
      ["--flat-group-size " ++ toString p.flat_group_size]
      ++ (if p.loopback_255 then ["--loopback-255"] else [])
      ++ (if p.gi0_zero then ["--gi0-zero"] else [])
    else [])
  ++ (if p.cml_version ≠ "" then ["--cml-version " ++ p.cml_version] else [])
  ++ (if p.enable_mgmt then
      ["--mgmt", "--mgmt-cidr " ++ p.mgmt_cidr]
      ++ (match p.mgmt_gw with
        | some g => ["--mgmt-gw " ++ g]
        | none => [])
      ++ ["--mgmt-slot " ++ toString p.mgmt_slot]
      ++ (match p.mgmt_vrf with
        | some v => ["--mgmt-vrf " ++ v]
        | none => [])
      ++ (if p.mgmt_bridge then ["--mgmt-bridge"] else [])
    else [])
  ++ (match p.ntp_server with
    | some s => ["--ntp " ++ s]
      ++ (if p.ntp_inband then ["--ntp-inband"] else [])
      ++ (match p.ntp_vrf with
        | some v => ["--ntp-vrf " ++ v]
        | none => [])
    | none => [])
  ++ (match p.ntp_oob_server with
    | some s => ["--ntp-oob " ++ s]
    | none => [])
  ++ ["-L " ++ p.labname,
      "--offline-yaml " ++ p.offline_yaml.replace "\\" "/"]

/-- The lab description (`render.py:3009-3014`). -/
def flatDesc (p : FlatParams) : String :=
  let desc := "Generated by topogen v" ++ TOPGEN_VERSION ++ " (offline YAML) | args: "
    ++ String.intercalate " " (flatArgsBits p)
  match p.remark with
  | some r => desc ++ " | remark: " ++ r
  | none => desc

/-- Port-inventory lines emitted for `count` switch ports starting at slot
`offset` (`render.py:3044-3048` and the analogous loops). -/
def ifacePortLines (count offset : Nat) : List Line :=
  (List.range count).flatMap fun q =>
    let port := q + offset
    [Line.lit ("      - id: i" ++ toString port),
     Line.lit ("        slot: " ++ toString port),
     Line.lit ("        label: port" ++ toString port),
     Line.lit "        type: physical"]

/-- Core-switch node block SW0 (`render.py:3023-3048`): one port per
access switch, plus one for the CA when PKI is enabled. -/
def flatCoreSwitchLines (p : FlatParams) : List Line :=
  let core_if_count := flatNumSw p + (if p.pki_enabled then 1 else 0)
  [Line.lit "  - id: n0",
   Line.lit "    label: SW0",
   Line.lit "    node_definition: unmanaged_switch",
   Line.lit "    x: 0",
   Line.lit "    y: 0",
   Line.lit "    interfaces:"]
  ++ ifacePortLines core_if_count 0

/-- Access-switch node blocks SW1..SWn (`render.py:3050-3069`): placed at
`flatAccessSwitchX`, each with one uplink port plus one port per attached
router. -/
def flatAccessSwitchLines (p : FlatParams) : List Line :=
  (List.range (flatNumSw p)).flatMap fun i =>
    [Line.lit ("  - id: n" ++ toString (1 + i)),
     Line.lit ("    label: SW" ++ toString (i + 1)),
     Line.lit "    node_definition: unmanaged_switch",
     Line.lit ("    x: " ++ toString (flatAccessSwitchX p.distance i)),
     Line.lit "    y: 0",
     Line.lit "    interfaces:"]
    ++ ifacePortLines (1 + perSwCount p i) 0

/-- OOB management node blocks (`render.py:3071-3149`): optional external
connector, the OOB core switch SWoob0, and the OOB access switches. -/
def flatOobSwitchLines (p : FlatParams) : List Line :=
  if p.enable_mgmt then
    let num_oob := flatNumOob p
    let port_offset := if p.mgmt_bridge then 1 else 0
    let swoob0_ports := num_oob + (if p.pki_enabled then 1 else 0)
    (if p.mgmt_bridge then
      [Line.lit ("  - id: n" ++ toString (1 + flatNumSw p)),
       Line.lit "    label: ext-conn-mgmt",
       Line.lit "    node_definition: external_connector",
       Line.lit "    x: -440",
       Line.lit "    y: 0",
       Line.lit "    configuration:",
       Line.lit "      - name: default",
       Line.lit "        content: System Bridge",
       Line.lit "    interfaces:",
       Line.lit "      - id: i0",
       Line.lit "        slot: 0",
       Line.lit "        label: port",
       Line.lit "        type: physical"]
    else [])
    ++ [Line.lit ("  - id: n" ++ toString (1 + flatNumSw p + port_offset)),
        Line.lit "    label: SWoob0",
        Line.lit "    node_definition: unmanaged_switch",
        Line.lit "    hide_links: true",
        Line.lit "    x: -200",
        Line.lit "    y: 0",
        Line.lit "    interfaces:"]
    ++ (if p.mgmt_bridge then
        [Line.lit "      - id: i0",
         Line.lit "        slot: 0",
         Line.lit "        label: port0",
         Line.lit "        type: physical"]
      else [])
    ++ ifacePortLines swoob0_ports port_offset
    ++ ((List.range num_oob).flatMap fun i =>
        [Line.lit ("  - id: n" ++ toString (1 + flatNumSw p + port_offset + 1 + i)),
         Line.lit ("    label: SWoob" ++ toString (i + 1)),
         Line.lit "    node_definition: unmanaged_switch",
         Line.lit "    hide_links: true",
         Line.lit ("    x: " ++ toString (-200 - ((i : Int) + 1) * p.distance)),
         Line.lit ("    y: " ++ toString (((i : Int) + 1) * p.distance)),
         Line.lit "    interfaces:"]
        ++ ifacePortLines (1 + perSwCount p i) 0)
  else []

/-- Indentation applied to embedded configuration text
(`render.py:3236-3237`: each rendered line is prefixed by six spaces). -/
def indentLine6 : Line → Line
  | Line.lit s => Line.lit ("      " ++ s)
  | Line.stamped pre post => Line.stamped ("      " ++ pre) post

/-- Router node block R(idx+1) (`render.py:3155-3237`): deterministic
addressing via `addr_parts`, template rendering, optional PKI trust-block
injection, grid placement via `flatRouterXY`, interface inventory, and the
indented configuration text. -/
def flatRouterBlock (p : FlatParams) (cfg : RenderCfg) (idx : Nat) : List Line :=
  let n := idx + 1
  let label := "R" ++ toString n
  let rendered := renderDeviceTemplate cfg.domainname label
    (flatLIp p n ++ "/32") [(0, flatGIp p n ++ "/16")]
  let rendered :=
    if p.pki_enabled then
      injectPkiClientTrustpoint rendered label cfg.domainname
        ("http://" ++ flatGBase p ++ ".255.254:80")
    else rendered
  let rxy := flatRouterXY p.distance (flatGroup p) idx
  [Line.lit ("  - id: n" ++ toString (routerBaseNid p + idx)),
   Line.lit ("    label: " ++ label),
   Line.lit ("    node_definition: " ++ p.dev_template),
   Line.lit ("    x: " ++ toString rxy.1),
   Line.lit ("    y: " ++ toString rxy.2),
   Line.lit "    interfaces:",
   Line.lit "      - id: i0",
   Line.lit "        slot: 0"]
  ++ (if p.dev_template = "csr1000v" then
      [Line.lit "        label: GigabitEthernet1"]
    else [Line.lit "        label: GigabitEthernet0/0"])
  ++ [Line.lit "        type: physical"]
  ++ (if p.enable_mgmt then
      (if p.dev_template = "csr1000v" then
        [Line.lit ("      - id: i" ++ toString (p.mgmt_slot - 1)),
         Line.lit ("        slot: " ++ toString (p.mgmt_slot - 1)),
         Line.lit ("        label: GigabitEthernet" ++ toString p.mgmt_slot)]
      else
        [Line.lit ("      - id: i" ++ toString p.mgmt_slot),
         Line.lit ("        slot: " ++ toString p.mgmt_slot),
         Line.lit ("        label: GigabitEthernet0/" ++ toString p.mgmt_slot)])
      ++ [Line.lit "        type: physical"]
    else [])
  ++ [Line.lit "    configuration: |-"]
  ++ rendered.map indentLine6

/-- CA-ROOT node block (`render.py:3239-3373`, PKI only): the CA base
configuration is rendered, its trailing `end` dropped
(`render.py:3308-3311`), the RSA key line renamed, the PKI server,
self-enrollment and authenticate blocks appended, and a final `end` added;
the node sits left of SW0 at `x = -distance * 3` and is always a
csr1000v. -/
def flatCaBlock (p : FlatParams) (cfg : RenderCfg) : List Line :=
  let ca_g_ip := flatGBase p ++ ".255.254"
  let ca_l_ip := flatLBase p ++ ".255.254"
  let base := renderDeviceTemplate cfg.domainname "CA-ROOT"
    (ca_l_ip ++ "/32") [(0, ca_g_ip ++ "/16")]
  let ls := if (base.getLast?).elim false isEndLine then base.dropLast else base
  let ls := replaceFirstRsaKey ls
  let ls := ls ++ pkiConfigLines
    ++ pkiCaSelfEnrollBlockLines "CA-ROOT" cfg.domainname
      ("http://" ++ ca_g_ip ++ ":80")
    ++ pkiCaAuthenticateEemLines
    ++ [Line.lit "end"]
  [Line.lit ("  - id: n" ++ toString (caNid p)),
   Line.lit "    label: CA-ROOT",
   Line.lit "    node_definition: csr1000v",
   Line.lit ("    x: " ++ toString (-p.distance * 3)),
   Line.lit "    y: 0",
   Line.lit "    interfaces:",
   Line.lit "      - id: i0",
   Line.lit "        slot: 0",
   Line.lit "        label: GigabitEthernet1",
   Line.lit "        type: physical"]
  ++ (if p.enable_mgmt then
      [Line.lit ("      - id: i" ++ toString (p.mgmt_slot - 1)),
       Line.lit ("        slot: " ++ toString (p.mgmt_slot - 1)),
       Line.lit ("        label: GigabitEthernet" ++ toString p.mgmt_slot),
       Line.lit "        type: physical"]
    else [])
  ++ [Line.lit "    configuration: |-"]
  ++ ls.map indentLine6

/-- Five lines of one link block (`render.py:3381-3386` and the analogous
loops). -/
def linkBlock (lid : Nat) (n1 i1 n2 i2 : String) : List Line :=
  [Line.lit ("  - id: l" ++ toString lid),
   Line.lit ("    n1: " ++ n1),
   Line.lit ("    i1: " ++ i1),
   Line.lit ("    n2: " ++ n2),
   Line.lit ("    i2: " ++ i2)]

/-- The links section (`render.py:3375-3466`): access→core uplinks
(lids `0..num_sw-1`), then the router→access links (lids
`num_sw..num_sw+total-1`; the per-switch port counter `per_sw_next_port`
of `render.py:3388-3395`, reserving port 0 for the uplink, hands router
`idx` port `idx % group + 1`, since the routers of each switch are visited
in index order), then the optional CA→SW0 data link (lid `num_sw+total`,
`render.py:3403-3412`), then the OOB links mirroring the same pattern, and
the optional CA management link. -/
def flatLinkLines (p : FlatParams) : List Line :=
  let num_sw := flatNumSw p
  let group := flatGroup p
  let pki := if p.pki_enabled then 1 else 0
  let oobBase := num_sw + p.nodes + pki
  [Line.lit "links:"]
  ++ ((List.range num_sw).flatMap fun i =>
      linkBlock i ("n" ++ toString (1 + i)) "i0" "n0" ("i" ++ toString i))
  ++ ((List.range p.nodes).flatMap fun idx =>
      linkBlock (num_sw + idx)
        ("n" ++ toString (routerBaseNid p + idx)) "i0"
        ("n" ++ toString (1 + idx / group))
        ("i" ++ toString (idx % group + 1)))
  ++ (if p.pki_enabled then
      linkBlock (num_sw + p.nodes) ("n" ++ toString (caNid p)) "i0" "n0"
        ("i" ++ toString num_sw)
    else [])
  ++ (if p.enable_mgmt then
      let num_oob := flatNumOob p
      let port_offset := if p.mgmt_bridge then 1 else 0
      let extConnNid := 1 + num_sw
      let swoob0Nid := 1 + num_sw + port_offset
      let bridgeLinks :=
        if p.mgmt_bridge then
          linkBlock oobBase ("n" ++ toString extConnNid) "i0"
            ("n" ++ toString swoob0Nid) "i0"
        else []
      let oobUplinkBase := oobBase + port_offset
      let routerMgmtBase := oobUplinkBase + num_oob
      let router_mgmt_iface_id :=
        if p.dev_template = "csr1000v" then p.mgmt_slot - 1 else p.mgmt_slot
      bridgeLinks
      ++ ((List.range num_oob).flatMap fun i =>
          linkBlock (oobUplinkBase + i)
            ("n" ++ toString (swoob0Nid + 1 + i)) "i0"
            ("n" ++ toString swoob0Nid) ("i" ++ toString (i + port_offset)))
      ++ ((List.range p.nodes).flatMap fun idx =>
          linkBlock (routerMgmtBase + idx)
            ("n" ++ toString (routerBaseNid p + idx))
            ("i" ++ toString router_mgmt_iface_id)
            ("n" ++ toString (swoob0Nid + 1 + idx / group))
            ("i" ++ toString (idx % group + 1)))
      ++ (if p.pki_enabled then
          linkBlock (routerMgmtBase + p.nodes)
            ("n" ++ toString (caNid p))
            ("i" ++ toString (p.mgmt_slot - 1))
            ("n" ++ toString swoob0Nid)
            ("i" ++ toString (port_offset + num_oob))
        else [])
    else [])

/-- The complete line list of the offline flat document
(`render.py:2968-3476`): annotation lines are prepended to the body at
`render.py:3476`, and the file is written as the newline-join of the
result (`render.py:3477`). -/
def offlineFlatDocLines (p : FlatParams) (cfg : RenderCfg) : List Line :=
  let desc := flatDesc p
  (intentAnnotationLines desc).map Line.lit
  ++ [Line.lit "lab:",
      Line.lit ("  title: " ++ p.labname),
      Line.lit ("  description: \"" ++ desc ++ "\"")]
  ++ (intentNotesLines desc).map Line.lit
  ++ [Line.lit ("  version: " ++ sq ++ p.cml_version ++ sq),
      Line.lit "nodes:"]
  ++ flatCoreSwitchLines p
  ++ flatAccessSwitchLines p
  ++ flatOobSwitchLines p
  ++ (List.range p.nodes).flatMap (flatRouterBlock p cfg)
  ++ (if p.pki_enabled then flatCaBlock p cfg else [])
  ++ flatLinkLines p

/-- Lines of one synthesis run: every line rendered with that run's
generation timestamp `d`. -/
def offlineFlatDocRendered (p : FlatParams) (cfg : RenderCfg) (d : String) :
    List String :=
  (offlineFlatDocLines p cfg).map (Line.render d)

/-- The document text written to the output file (`render.py:3477`). -/
def offlineFlatDoc (p : FlatParams) (cfg : RenderCfg) (d : String) : String :=
  String.intercalate "\n" (offlineFlatDocRendered p cfg d)

/-- C8: two offline flat synthesis runs with identical parameters produce
line-for-line identical documents except at timestamp-bearing lines: the
documents have the same length, and any position where they differ holds
the same fixed head and tail around the respective run's generation
timestamp. -/
theorem C8_offline_idempotent_up_to_timestamp (p : FlatParams)
    (cfg : RenderCfg) (d1 d2 : String) :
    (offlineFlatDocRendered p cfg d1).length =
      (offlineFlatDocRendered p cfg d2).length
    ∧ ∀ i : Nat,
        (offlineFlatDocRendered p cfg d1).getD i "" ≠
          (offlineFlatDocRendered p cfg d2).getD i "" →
        ∃ pre post,
          (offlineFlatDocRendered p cfg d1).getD i "" = pre ++ d1 ++ post
          ∧ (offlineFlatDocRendered p cfg d2).getD i "" = pre ++ d2 ++ post := by
  constructor
  · simp [offlineFlatDocRendered]
  · intro i hne
    unfold offlineFlatDocRendered at hne ⊢
    rcases hi : (offlineFlatDocLines p cfg).get? i with _ | l
    · rw [List.getD_eq_getD_get?, List.getD_eq_getD_get?, List.get?_map,
        List.get?_map, hi] at hne
      simp at hne
    · rw [List.getD_eq_getD_get?, List.getD_eq_getD_get?, List.get?_map,
        List.get?_map, hi] at hne ⊢
      cases l with
      | lit t => simp [Line.render] at hne
      | stamped pr po =>
        refine ⟨pr, po, ?_, ?_⟩ <;> simp [Line.render]

/-- A minimal flat-mode parameter set (one router, group size 1, all
optional features off), used to witness C8 on concrete runs. -/
def smallFlatParams : FlatParams where
  labname := "lab"
  mode := "flat"
  template := "iosv"
  dev_template := "iosv"
  nodes := 1
  flat_group_size := 1
  distance := 200
  enable_vrf := false
  pair_vrf := none
  loopback_255 := false
  gi0_zero := false
  cml_version := "0.3.0"
  enable_mgmt := false
  mgmt_cidr := ""
  mgmt_gw := none
  mgmt_slot := 5
  mgmt_vrf := none
  mgmt_bridge := false
  ntp_server := none
  ntp_inband := false
  ntp_vrf := none
  ntp_oob_server := none
  remark := none
  offline_yaml := "out.yaml"
  pki_enabled := false

/-- Witness for C8: two runs with timestamps `A` and `B` differ at line 60
(the generated-at comment of R1's configuration), and that line is the
common fixed text around the respective timestamp. -/
theorem C8_offline_idempotent_up_to_timestamp_witness :
    ∃ pre post,
      (offlineFlatDocRendered smallFlatParams ⟨"virl.lab"⟩ "A").getD 60 "" =
        pre ++ "A" ++ post
      ∧ (offlineFlatDocRendered smallFlatParams ⟨"virl.lab"⟩ "B").getD 60 "" =
        pre ++ "B" ++ post :=
  (C8_offline_idempotent_up_to_timestamp smallFlatParams ⟨"virl.lab"⟩
    "A" "B").2 60 (by decide)

end Topogen
